import Mathlib

/-!
Shallow embedding of Manalyze's PE import-directory parser and query layer
(src/manape/imports.cpp, namespace mana) and verification of the spec's
claims about it.

The byte source (`FILE*`) is modelled as a list of bytes plus an explicit
read cursor; every `fread` is a bounds-checked slice, every `fseek` moves
the cursor (C `fseek` past end-of-file succeeds; subsequent reads fail).
Machine integers are `Nat` values assembled little-endian from the bytes,
exactly as `fread` into a `uint32_t`/`uint64_t` does on x86.
-/

namespace mana

/-- Little-endian value of a byte list (each byte taken mod 256), as laid
down in memory by `fread` into an unsigned integer field. -/
def leVal : List Nat → Nat
  | [] => 0
  | b :: bs => b % 256 + 256 * leVal bs

/-- Read `n` bytes at offset `pos` of the file and assemble them
little-endian.  Callers check readability (`pos + n ≤ file.length`)
separately, mirroring the `n != fread(...)` checks in the source. -/
def readLE (file : List Nat) (pos n : Nat) : Nat :=
  leVal ((file.drop pos).take n)

/-- Little-endian encoding of the low 32 bits of a number; used to build
concrete test files. -/
def le32 (n : Nat) : List Nat :=
  [n % 256, n / 256 % 256, n / 65536 % 256, n / 16777216 % 256]

/-- Modelled from the spec: `utils::read_ascii_string` is not under `src/`
(only its call sites are).  Per the spec it reads a 2-byte hint "then a
null-terminated ASCII name"; we model it as reading bytes sequentially
until a NUL byte or end of file and returning them as a string.  It has no
failure channel: its result is a plain string. -/
def read_ascii_string (file : List Nat) (pos : Nat) : String :=
  String.mk (((file.drop pos).takeWhile (fun b => b != 0)).map (fun b => Char.ofNat (b % 256)))

/-- Modelled from the spec: `utils::read_string_at_offset` is not under
`src/`.  The spec says "Read a null-terminated ASCII string at that
offset.  If this fails: ..."; we model it as failing exactly when the
offset lies past the end of the file and otherwise returning the NUL- or
EOF-terminated ASCII string found there. -/
def read_string_at_offset (file : List Nat) (offset : Nat) : Option String :=
  if offset ≤ file.length then some (read_ascii_string file offset) else none

/-- `IMAGE_IMPORT_DESCRIPTOR` (manape/pe_structs.h): five 32-bit fields
read raw from the file plus the resolved name string (`NameStr`), which
`PE::_parse_imports` fills in after translating the `Name` RVA. -/
structure image_import_descriptor where
  OriginalFirstThunk : Nat
  TimeDateStamp : Nat
  ForwarderChain : Nat
  Name : Nat
  FirstThunk : Nat
  NameStr : String
deriving DecidableEq, Repr

/-- One import lookup table slot (`import_lookup_table` in
manape/pe_structs.h): the raw thunk value, and the hint and name filled in
from the Hint/Name table for by-name imports (left `0` / `""` otherwise,
as the source initialises them). -/
structure import_lookup_table where
  AddressOfData : Nat
  Hint : Nat
  Name : String
deriving DecidableEq, Repr

/-- `image_library_descriptor`: one imported library — its descriptor
paired with its ordered lookup-table entries. -/
abbrev image_library_descriptor := image_import_descriptor × List import_lookup_table

/-- A message sent to the logging sink by `PRINT_WARNING` / `PRINT_ERROR`. -/
inductive LogEvent
  | warning (msg : String)
  | error (msg : String)
deriving DecidableEq, Repr

/-- Modelled from the spec: the PE container state `PE::_parse_imports`
reads from.  `file` and the read cursor model the `FILE*`; `is64` is the
optional header's magic test (`_ioh->Magic == PE32+`); `ioh_present`
models `_ioh && _file_handle` (line 24); `import_directory` models
`_reach_directory(IMAGE_DIRECTORY_ENTRY_IMPORT)` (Directory Locator,
spec §4.2; not under `src/`): `none` when the directory is absent or
unreachable, otherwise the file offset it seeks to; `rva_to_offset`
models `_rva_to_offset` (RVA Translator, spec §4.1; not under `src/`):
an arbitrary translation function returning `0` for "unmapped", which is
how the call sites in `src/manape/imports.cpp` test failure. -/
structure PEFile where
  file : List Nat
  is64 : Bool
  ioh_present : Bool
  import_directory : Option Nat
  rva_to_offset : Nat → Nat

/-- `size_to_read` (imports.cpp line 92): thunk width, 8 bytes for PE32+
images and 4 otherwise. -/
def size_to_read (s : PEFile) : Nat := if s.is64 then 8 else 4

/-- `mask` (imports.cpp line 106): the bitness-appropriate top bit used to
detect by-ordinal imports. -/
def ordinal_mask (s : PEFile) : Nat :=
  if s.is64 then 0x8000000000000000 else 0x80000000

/-- Decode a 20-byte `IMAGE_IMPORT_DESCRIPTOR` at `pos` (the
`fread(iid.get(), 1, 20, ...)` of line 36, field by field, little-endian).
`NameStr` starts out empty, as the zero-initialised struct does. -/
def decode_descriptor (file : List Nat) (pos : Nat) : image_import_descriptor :=
  { OriginalFirstThunk := readLE file pos 4
    TimeDateStamp := readLE file (pos + 4) 4
    ForwarderChain := readLE file (pos + 8) 4
    Name := readLE file (pos + 12) 4
    FirstThunk := readLE file (pos + 16) 4
    NameStr := "" }

/-- Outcome of one iteration of the descriptor loop (imports.cpp lines
31-67): short read (line 36), sentinel (line 43), name-read failure
(line 52), or an accepted library descriptor. -/
inductive DescStep
  | fail
  | sentinel
  | nameFail
  | lib (d : image_import_descriptor)
deriving DecidableEq, Repr

/-- One iteration of the descriptor loop of `PE::_parse_imports`
(imports.cpp lines 31-67): read 20 bytes, test the all-zero-thunk
sentinel, translate the `Name` RVA — falling back to using the RVA as a
direct file offset when translation fails (lines 49-51) — and read the
library name there. -/
def read_descriptor (s : PEFile) (pos : Nat) : DescStep :=
  if pos + 20 ≤ s.file.length then
    let d := decode_descriptor s.file pos
    if d.OriginalFirstThunk = 0 ∧ d.FirstThunk = 0 then .sentinel
    else
      let o := s.rva_to_offset d.Name
      let offset := if o = 0 then d.Name else o
      match read_string_at_offset s.file offset with
      | some str => .lib { d with NameStr := str }
      | none => .nameFail
  else .fail

/-- How the descriptor loop ends: `abort` models the `return true`
statements at lines 39 and 62 (the lookup phase is skipped), `cont` the
two `break`s at lines 44 and 58 (control continues to the lookup phase).
Both carry the libraries accepted so far (`_imports`) and the log
messages emitted. -/
inductive DescLoopOut
  | abort (libs : List image_library_descriptor) (logs : List LogEvent)
  | cont (libs : List image_library_descriptor) (logs : List LogEvent)
deriving DecidableEq, Repr

/-- Libraries carried by either loop outcome (the `_imports` member). -/
def DescLoopOut.libs : DescLoopOut → List image_library_descriptor
  | .abort l _ => l
  | .cont l _ => l

/-- Log events carried by either loop outcome. -/
def DescLoopOut.logs : DescLoopOut → List LogEvent
  | .abort _ l => l
  | .cont _ l => l

/-- The descriptor loop of `PE::_parse_imports` (imports.cpp lines 31-67).
`fuel` bounds the iteration count so the definition is structural; the
wrapper passes `file.length + 1`, which dominates the real iteration
count because every iteration that recurses first read 20 bytes at a
strictly increasing offset.  A short read aborts with the error of line
38; a name-read failure aborts when no library has been accepted yet and
otherwise truncates with the warning of line 57. -/
def parse_descriptors (s : PEFile) :
    Nat → Nat → List image_library_descriptor → List LogEvent → DescLoopOut
  | 0, _, acc, logs => .abort acc logs
  | fuel + 1, pos, acc, logs =>
    match read_descriptor s pos with
    | .fail => .abort acc (logs ++ [.error "Could not read the IMAGE_IMPORT_DESCRIPTOR."])
    | .sentinel => .cont acc logs
    | .nameFail =>
      if acc.length > 0 then
        .cont acc (logs ++ [.warning "Could not read an import's name."])
      else
        .abort acc (logs ++ [.error "Could not read an import's name."])
    | .lib d => parse_descriptors s fuel (pos + 20) (acc ++ [(d, [])]) logs

/-- Outcome of one iteration of the lookup-table loop (imports.cpp lines
85-135): a fatal error with its message (lines 95, 114, 121), the zero
sentinel (line 100), or an entry to append together with the cursor
position the next read continues from. -/
inductive ThunkStep
  | fail (msg : String)
  | sentinel
  | entry (e : import_lookup_table) (next : Nat)
deriving DecidableEq, Repr

/-- One iteration of the lookup-table loop of `PE::_parse_imports`
(imports.cpp lines 85-135): read one bitness-sized thunk, test the zero
sentinel, test the top bit; for by-name imports translate bits 30-0 as
the Hint/Name RVA (failure is fatal, line 114), save the cursor, seek
there, read the 2-byte hint (failure is fatal, line 121) and the
NUL-terminated name (no check, line 124), then seek back to the saved
cursor. -/
def read_thunk_entry (s : PEFile) (pos : Nat) : ThunkStep :=
  if pos + size_to_read s ≤ s.file.length then
    let raw := readLE s.file pos (size_to_read s)
    if raw = 0 then .sentinel
    else if raw &&& ordinal_mask s = 0 then
      let table_offset := s.rva_to_offset (raw &&& 0x7FFFFFFF)
      if table_offset = 0 then .fail "Could not reach the HINT/NAME table."
      else
        let saved_offset := pos + size_to_read s
        if table_offset + 2 ≤ s.file.length then
          .entry
            { AddressOfData := raw
              Hint := readLE s.file table_offset 2
              Name := read_ascii_string s.file (table_offset + 2) }
            saved_offset
        else .fail "Could not read a HINT/NAME hint."
    else .entry { AddressOfData := raw, Hint := 0, Name := "" } (pos + size_to_read s)
  else .fail "Could not read the IMPORT_LOOKUP_TABLE."

/-- How one library's lookup-table loop ends: `ok` models the `break` of
line 101 (next library), `fail` the `return true`s of lines 96, 115, 122
(the whole import parse stops).  Both carry the entries pushed so far
into the library's vector. -/
inductive IltOut
  | ok (entries : List import_lookup_table)
  | fail (entries : List import_lookup_table) (msg : String)
deriving DecidableEq, Repr

/-- Entries carried by either outcome (the library's `second` vector). -/
def IltOut.entries : IltOut → List import_lookup_table
  | .ok l => l
  | .fail l _ => l

/-- The lookup-table loop of `PE::_parse_imports` for one library
(imports.cpp lines 85-135).  `fuel` bounds the iteration count (the
wrapper passes `file.length + 1`, which dominates the real count because
every iteration that recurses first read at least 4 bytes at a strictly
increasing offset). -/
def parse_ilt (s : PEFile) : Nat → Nat → List import_lookup_table → IltOut
  | 0, _, acc => .ok acc
  | fuel + 1, pos, acc =>
    match read_thunk_entry s pos with
    | .fail msg => .fail acc msg
    | .sentinel => .ok acc
    | .entry e next => parse_ilt s fuel next (acc ++ [e])

/-- The per-library phase of `PE::_parse_imports` (imports.cpp lines
70-136): for each accepted library, prefer `OriginalFirstThunk` and fall
back to `FirstThunk` when it is zero (lines 73-78), translate it (no
direct-offset fallback), and run the lookup-table loop.  A translation
failure or a fatal loop outcome stops the whole phase (`return true`),
leaving the remaining libraries with the entries they already had. -/
def parse_lookup_tables (s : PEFile) (fuel : Nat) :
    List image_library_descriptor → List LogEvent →
    List image_library_descriptor × List LogEvent
  | [], logs => ([], logs)
  | (d, es) :: rest, logs =>
    let ilt_rva := if d.OriginalFirstThunk ≠ 0 then d.OriginalFirstThunk else d.FirstThunk
    let ilt_offset := s.rva_to_offset ilt_rva
    if ilt_offset = 0 then
      ((d, es) :: rest, logs ++ [.error "Could not reach an IMPORT_LOOKUP_TABLE."])
    else
      match parse_ilt s fuel ilt_offset es with
      | .fail acc msg => ((d, acc) :: rest, logs ++ [.error msg])
      | .ok acc =>
        let r := parse_lookup_tables s fuel rest logs
        ((d, acc) :: r.1, r.2)

/-- What `PE::_parse_imports` leaves behind: its boolean return value,
the `_imports` member it filled in, and the messages it sent to the
logging sink. -/
structure ParseOutput where
  ret : Bool
  imports : List image_library_descriptor
  logs : List LogEvent
deriving DecidableEq, Repr

/-- `PE::_parse_imports` (imports.cpp lines 22-139): returns `false` only
when the optional header or file handle is missing (line 25); an absent
directory of imports is success with no imports (line 28); otherwise the
descriptor loop runs, and — unless it aborted — the lookup phase runs
over the accepted libraries.  Every path past line 26 returns `true`. -/
def _parse_imports (s : PEFile) : ParseOutput :=
  if s.ioh_present = false then ⟨false, [], []⟩
  else
    match s.import_directory with
    | none => ⟨true, [], []⟩
    | some dirOff =>
      match parse_descriptors s (s.file.length + 1) dirOff [] [] with
      | .abort libs logs => ⟨true, libs, logs⟩
      | .cont libs logs =>
        let r := parse_lookup_tables s (s.file.length + 1) libs logs
        ⟨true, r.1, r.2⟩

/-- The part of a parse outcome the caller of `PE::_parse_imports` can
inspect: the returned boolean and the `_imports` member.  Log messages go
to the logging sink (stderr), not to the caller. -/
def caller_view (o : ParseOutput) : Bool × List image_library_descriptor :=
  (o.ret, o.imports)

/-- The query-layer view of a parsed PE: the `_initialized` flag set by
the container and the `_imports` member built by `_parse_imports`. -/
structure PE where
  _initialized : Bool
  _imports : List image_library_descriptor
deriving DecidableEq

/-- `PE::get_imported_dlls` (imports.cpp lines 143-154). -/
def get_imported_dlls (pe : PE) : List String :=
  if pe._initialized = false then []
  else pe._imports.map (fun l => l.1.NameStr)

/-- `PE::get_imported_functions` (imports.cpp lines 158-194): exact-match
lookup of the library, then each entry yields its resolved name, or the
synthesized label `"#" + (AddressOfData & 0x7FFF)` when the name is
empty (by-ordinal imports). -/
def get_imported_functions (pe : PE) (dll : String) : List String :=
  if pe._initialized = false then []
  else
    match pe._imports.find? (fun l => l.1.NameStr == dll) with
    | none => []
    | some ild =>
      ild.2.map (fun e =>
        if e.Name != "" then e.Name
        else "#" ++ toString (e.AddressOfData &&& 0x7FFF))

/-- A regular-expression item: a literal character or `.` (any
character). -/
inductive RItem
  | lit (c : Char)
  | dot
deriving DecidableEq, Repr

/-- One compiled atom: an item, possibly starred. -/
structure RAtom where
  item : RItem
  star : Bool
deriving DecidableEq, Repr

/-- ASCII lower-casing, as `boost::regex::icase` collation does for the
ASCII strings involved here. -/
def lower_char (c : Char) : Char :=
  if 65 ≤ c.toNat ∧ c.toNat ≤ 90 then Char.ofNat (c.toNat + 32) else c

/-- Whether one item matches one character, under optional
case-insensitivity. -/
def char_match (icase : Bool) : RItem → Char → Bool
  | .dot, _ => true
  | .lit c, x => if icase then lower_char c == lower_char x else c == x

/-- Modelled from the spec: compile the body of a `boost::regex` pattern,
restricted to the constructs the spec's patterns use — literals, `\`
escapes, `.`, postfix `*`, and the (redundant, since `regex_match` is a
full match) anchors `^` and `$`. -/
def parse_atoms : List Char → List RAtom
  | [] => []
  | '\\' :: c :: '*' :: rest => ⟨.lit c, true⟩ :: parse_atoms rest
  | '\\' :: c :: rest => ⟨.lit c, false⟩ :: parse_atoms rest
  | '$' :: [] => []
  | '.' :: '*' :: rest => ⟨.dot, true⟩ :: parse_atoms rest
  | '.' :: rest => ⟨.dot, false⟩ :: parse_atoms rest
  | c :: '*' :: rest => ⟨.lit c, true⟩ :: parse_atoms rest
  | c :: rest => ⟨.lit c, false⟩ :: parse_atoms rest

/-- Compile a pattern, dropping a leading `^` anchor. -/
def regex_compile (pat : String) : List RAtom :=
  match pat.data with
  | '^' :: rest => parse_atoms rest
  | cs => parse_atoms cs

/-- The suffixes a starred item can leave behind: consume zero or more
leading characters, each of which must match the item. -/
def star_tails (icase : Bool) (it : RItem) : List Char → List (List Char)
  | [] => [[]]
  | c :: cs =>
    (c :: cs) :: (if char_match icase it c then star_tails icase it cs else [])

/-- Full-match of a compiled pattern against a character list (the
semantics of `boost::regex_match`: the whole subject must match). -/
def rmatch (icase : Bool) : List RAtom → List Char → Bool
  | [], cs => cs.isEmpty
  | a :: as, cs =>
    if a.star then (star_tails icase a.item cs).any (fun t => rmatch icase as t)
    else
      match cs with
      | [] => false
      | c :: cs' => char_match icase a.item c && rmatch icase as cs'

/-- Modelled from the spec: `boost::regex_match` with a regex built
case-sensitively or with `boost::regex::icase` (imports.cpp lines
206-212 and 236-242), for the restricted pattern language above. -/
def regex_match (case_sensitive : Bool) (pat subject : String) : Bool :=
  rmatch (!case_sensitive) (regex_compile pat) subject.data

/-- `PE::_find_imported_dlls` (imports.cpp lines 198-221): keep the
libraries whose name fully matches the pattern, case-sensitively or not
per the flag. -/
def _find_imported_dlls (pe : PE) (name_regexp : String) (case_sensitivity : Bool) :
    List image_library_descriptor :=
  if pe._initialized = false then []
  else pe._imports.filter (fun l => regex_match case_sensitivity name_regexp l.1.NameStr)

/-- `PE::find_imports` (imports.cpp lines 225-259).  The call at line 234
passes only the library pattern to `_find_imported_dlls`; the
`case_sensitivity` default of that parameter is declared in manape/pe.h,
which is not under `src/`, and is modelled from the spec ("default
case-sensitive") as `true`.  The flag argument is applied only to the
function-name regex (lines 236-242); entries with an empty resolved name
(by-ordinal imports) are skipped (line 250). -/
def find_imports (pe : PE) (function_name_regexp dll_name_regexp : String)
    (case_sensitivity : Bool) : List String :=
  if pe._initialized = false then []
  else
    let matching_dlls := _find_imported_dlls pe dll_name_regexp true
    (matching_dlls.map (fun l =>
      (l.2.filter (fun e =>
        e.Name != "" && regex_match case_sensitivity function_name_regexp e.Name)).map
        (fun e => e.Name))).flatten

/-! Concrete inputs used below to exercise the definitions. -/

/-- The spec's example table: library `kernel32.dll` importing
`CreateFileA`, `CreateMutexW` and ordinal `#7`. -/
def kernel32_table : List image_library_descriptor :=
  [({ OriginalFirstThunk := 0x2000, TimeDateStamp := 0, ForwarderChain := 0,
      Name := 0x3000, FirstThunk := 0x2000, NameStr := "kernel32.dll" },
    [⟨0x3100, 1, "CreateFileA"⟩, ⟨0x3200, 2, "CreateMutexW"⟩, ⟨0x80000007, 0, ""⟩])]

/-- A successfully initialised PE holding `kernel32_table`. -/
def kernel32_pe : PE := ⟨true, kernel32_table⟩

/-- The same imports on a PE that was never successfully initialised. -/
def pe_uninitialized : PE := ⟨false, kernel32_table⟩

/-- Import directory present but the file is empty: the very first
20-byte descriptor read fails. -/
def c2_fatal : PEFile := ⟨[], false, true, some 0, fun _ => 0⟩

/-- A well-formed empty import directory: the first descriptor is the
all-zero sentinel. -/
def c2_ok : PEFile := ⟨List.replicate 20 0, false, true, some 0, fun _ => 0⟩

/-- 32-bit image, one library `"L"` (name at offset 40), whose lookup
table at offset 44 holds the single by-ordinal thunk `0x80008000`
(top bit set, low bits 0x8000 = 32768) followed by the zero sentinel.
RVAs equal file offsets here (`rva_to_offset` is the identity). -/
def c3s : PEFile :=
  ⟨le32 44 ++ le32 0 ++ le32 0 ++ le32 40 ++ le32 44
    ++ List.replicate 20 0 ++ [76, 0, 0, 0] ++ le32 0x80008000 ++ le32 0,
   false, true, some 0, fun rva => rva⟩

/-- 32-bit image, one library `"L"`, one by-name thunk (raw value 300)
whose Hint/Name table sits at file offset 52: hint bytes `[1, 0]`, then
name bytes `"AB"` — and then the file ends, with no NUL terminator. -/
def c4s : PEFile :=
  ⟨le32 100 ++ le32 0 ++ le32 0 ++ le32 200 ++ le32 100
    ++ List.replicate 20 0 ++ [76, 0, 0, 0] ++ le32 300 ++ le32 0 ++ [1, 0, 65, 66],
   false, true, some 0,
   fun rva => if rva = 100 then 44 else if rva = 200 then 40 else if rva = 300 then 52 else 0⟩

/-- Like `c4s` but truncated one byte into the Hint/Name hint: the
2-byte hint read fails. -/
def c4s_hint_truncated : PEFile :=
  ⟨le32 100 ++ le32 0 ++ le32 0 ++ le32 200 ++ le32 100
    ++ List.replicate 20 0 ++ [76, 0, 0, 0] ++ le32 300 ++ le32 0 ++ [1],
   false, true, some 0,
   fun rva => if rva = 100 then 44 else if rva = 200 then 40 else if rva = 300 then 52 else 0⟩

/-- A single non-sentinel descriptor (`OriginalFirstThunk = 1`) whose
`Name` RVA (999) is unmapped, and whose direct-offset fallback also lies
past the end of the 20-byte file: the name read fails. -/
def c5s : PEFile :=
  ⟨le32 1 ++ le32 0 ++ le32 0 ++ le32 999 ++ le32 0, false, true, some 0, fun _ => 0⟩

/-- A previously accepted library, used as loop state in witnesses. -/
def c5lib : image_library_descriptor :=
  ({ OriginalFirstThunk := 1, TimeDateStamp := 0, ForwarderChain := 0,
     Name := 999, FirstThunk := 0, NameStr := "X" }, [])

/-- A 4-byte file whose single thunk (raw value 5) is by-name with an
unmapped Hint/Name RVA. -/
def c8s : PEFile := ⟨[5, 0, 0, 0], false, true, none, fun _ => 0⟩

/-- The query-layer view of the parse of `c3s`. -/
def c3pe : PE := ⟨true, (_parse_imports c3s).imports⟩

/-! Theorems. -/

/-- C1 (counterexample): `find_imports` does not apply the
case-sensitivity flag to the library pattern: with `case_sensitive =
false`, `search("^Create.*", "^KERNEL32\.DLL$", false)` against a table
containing `kernel32.dll` with `CreateFileA`, `CreateMutexW` and `#7`
returns `[]`, not `["CreateFileA", "CreateMutexW"]` as the claim
states. -/
theorem c1_counterexample :
    find_imports kernel32_pe "^Create.*" "^KERNEL32\\.DLL$" false = [] ∧
    ([] : List String) ≠ ["CreateFileA", "CreateMutexW"] := by
  exact ⟨by decide, by decide⟩

/-- C1 (amended): the case-sensitivity flag is applied only to the
function-name pattern; the library-name pattern is always matched with
the default, case-sensitive, regex.  So the claim's call returns `[]`,
while with a case-matching library pattern the same searches honour the
flag on function names and always exclude the ordinal entry `#7`. -/
theorem c1_amended_thm :
    find_imports kernel32_pe "^Create.*" "^KERNEL32\\.DLL$" false = [] ∧
    find_imports kernel32_pe "^CREATE.*" "^kernel32\\.dll$" false
      = ["CreateFileA", "CreateMutexW"] ∧
    find_imports kernel32_pe "^Create.*" "^kernel32\\.dll$" true
      = ["CreateFileA", "CreateMutexW"] ∧
    find_imports kernel32_pe "^CREATE.*" "^kernel32\\.dll$" true = [] := by
  refine ⟨by decide, by decide, by decide, by decide⟩

/-- C2 (counterexample): on an input whose very first descriptor read
fails (a fatal `DescriptorUnreadable` condition, logged as an error) the
caller-visible result — the returned boolean and the `_imports` member —
is identical to that of a successful parse of an empty import table:
there is no failure indicator the caller can inspect. -/
theorem c2_counterexample :
    caller_view (_parse_imports c2_fatal) = caller_view (_parse_imports c2_ok) ∧
    (_parse_imports c2_fatal).logs
      = [.error "Could not read the IMAGE_IMPORT_DESCRIPTOR."] ∧
    (_parse_imports c2_ok).logs = [] := by
  refine ⟨by decide, by decide, by decide⟩

/-- C2 (amended): fatal conditions stop import parsing and keep whatever
was collected, and the error goes to the log sink only: the boolean
result of `_parse_imports` equals the optional-header-present flag, so
every parse past the header guard — fatal or not — returns `true`,
indistinguishable from success, and the enclosing PE parse is never
aborted.  In particular a failed descriptor read aborts the descriptor
loop keeping the accepted libraries, and a fatal lookup-loop step stops
that loop keeping the entries read so far. -/
theorem c2_amended_thm :
    (∀ s : PEFile, (_parse_imports s).ret = s.ioh_present)
    ∧ (∀ (s : PEFile) (fuel pos : Nat) (acc : List image_library_descriptor)
        (logs : List LogEvent),
        read_descriptor s pos = .fail →
        parse_descriptors s (fuel + 1) pos acc logs =
          .abort acc (logs ++ [.error "Could not read the IMAGE_IMPORT_DESCRIPTOR."]))
    ∧ (∀ (s : PEFile) (fuel pos : Nat) (acc : List import_lookup_table) (msg : String),
        read_thunk_entry s pos = .fail msg →
        parse_ilt s (fuel + 1) pos acc = .fail acc msg) := by
  refine ⟨?_, ?_, ?_⟩
  · intro s
    unfold _parse_imports
    rcases h : s.ioh_present with _ | _
    · simp [h]
    · simp only [h]
      rcases hd : s.import_directory with _ | dirOff
      · simp
      · simp only []
        rcases hp : parse_descriptors s (s.file.length + 1) dirOff [] [] with _ | _ <;> simp
  · intro s fuel pos acc logs h
    simp [parse_descriptors, h]
  · intro s fuel pos acc msg h
    simp [parse_ilt, h]

/-- C2 (witness). -/
theorem c2_witness :
    (_parse_imports c2_fatal).ret = c2_fatal.ioh_present ∧
    read_descriptor c2_fatal 0 = .fail ∧
    parse_descriptors c2_fatal 1 0 [c5lib] [] =
      .abort [c5lib] ([] ++ [.error "Could not read the IMAGE_IMPORT_DESCRIPTOR."]) ∧
    read_thunk_entry c8s 0 = .fail "Could not reach the HINT/NAME table." ∧
    parse_ilt c8s 1 0 [] = .fail [] "Could not reach the HINT/NAME table." := by
  refine ⟨c2_amended_thm.1 c2_fatal, by decide,
    c2_amended_thm.2.1 c2_fatal 0 0 [c5lib] [] (by decide), by decide,
    c2_amended_thm.2.2 c8s 0 0 [] "Could not reach the HINT/NAME table." (by decide)⟩

/-- C9: whenever the lookup-table loop produces an entry — in particular
after the Hint/Name side-trip of a by-name import — the next read
continues at the saved cursor immediately after the just-read thunk
(`pos` plus the bitness-sized width), not at the Hint/Name table. -/
theorem c9_thm :
    ∀ (s : PEFile) (pos : Nat) (e : import_lookup_table) (next : Nat),
      read_thunk_entry s pos = .entry e next → next = pos + size_to_read s := by
  intro s pos e next h
  simp only [read_thunk_entry] at h
  repeat' split at h
  all_goals (cases h <;> rfl)

/-- C9 (witness): the by-name entry of `c4s` (thunk at offset 44,
Hint/Name table at offset 52) is followed by a read at offset 48. -/
theorem c9_witness :
    read_thunk_entry c4s 44 = .entry ⟨300, 1, "AB"⟩ 48 ∧ 48 = 44 + size_to_read c4s := by
  exact ⟨by decide, c9_thm c4s 44 ⟨300, 1, "AB"⟩ 48 (by decide)⟩

/-- C10: on a PE that was not successfully initialised, all query-layer
operations return the empty sequence. -/
theorem c10_thm :
    ∀ (pe : PE) (dll fpat lpat : String) (cs : Bool),
      pe._initialized = false →
      get_imported_dlls pe = [] ∧ get_imported_functions pe dll = [] ∧
      _find_imported_dlls pe lpat cs = [] ∧ find_imports pe fpat lpat cs = [] := by
  intro pe dll fpat lpat cs h
  refine ⟨?_, ?_, ?_, ?_⟩ <;>
    simp [get_imported_dlls, get_imported_functions, _find_imported_dlls, find_imports, h]

/-- C10 (witness): an uninitialised PE whose `_imports` member holds a
non-empty table still yields empty query results. -/
theorem c10_witness :
    pe_uninitialized._initialized = false ∧
    get_imported_dlls pe_uninitialized = [] ∧
    get_imported_functions pe_uninitialized "kernel32.dll" = [] ∧
    _find_imported_dlls pe_uninitialized ".*" false = [] ∧
    find_imports pe_uninitialized ".*" ".*" false = [] := by
  have h := c10_thm pe_uninitialized "kernel32.dll" ".*" ".*" false (by decide)
  exact ⟨by decide, h.1, h.2.1, h.2.2.1, h.2.2.2⟩

/-- C5: a descriptor name-read failure truncates the scan with a warning
when at least one library was already accepted (the loop `break`s and,
as the third conjunct shows, `_parse_imports` then proceeds to the
lookup-table phase over the accepted libraries), while the same failure
on the very first descriptor aborts with an error and zero libraries. -/
theorem c5_thm :
    (∀ (s : PEFile) (fuel pos : Nat) (acc : List image_library_descriptor)
        (logs : List LogEvent),
        read_descriptor s pos = .nameFail → acc.length > 0 →
        parse_descriptors s (fuel + 1) pos acc logs =
          .cont acc (logs ++ [.warning "Could not read an import's name."]))
    ∧ (∀ (s : PEFile) (fuel pos : Nat) (logs : List LogEvent),
        read_descriptor s pos = .nameFail →
        parse_descriptors s (fuel + 1) pos [] logs =
          .abort [] (logs ++ [.error "Could not read an import's name."]))
    ∧ (∀ (s : PEFile) (dirOff : Nat) (libs : List image_library_descriptor)
        (logs : List LogEvent),
        s.ioh_present = true → s.import_directory = some dirOff →
        parse_descriptors s (s.file.length + 1) dirOff [] [] = .cont libs logs →
        _parse_imports s =
          ⟨true, (parse_lookup_tables s (s.file.length + 1) libs logs).1,
           (parse_lookup_tables s (s.file.length + 1) libs logs).2⟩) := by
  refine ⟨?_, ?_, ?_⟩
  · intro s fuel pos acc logs h hacc
    simp [parse_descriptors, h, Nat.pos_iff_ne_zero.mp hacc]
  · intro s fuel pos logs h
    simp [parse_descriptors, h]
  · intro s dirOff libs logs hio hdir hp
    simp [_parse_imports, hio, hdir, hp]

/-- C5 (witness): on `c5s` the (non-sentinel) descriptor's name read
fails; with one library already accepted the loop truncates with a
warning, with none it aborts with an error; and on `c2_ok` the loop ends
in `cont` and `_parse_imports` runs the lookup phase. -/
theorem c5_witness :
    read_descriptor c5s 0 = .nameFail ∧
    parse_descriptors c5s 1 0 [c5lib] [] =
      .cont [c5lib] ([] ++ [.warning "Could not read an import's name."]) ∧
    parse_descriptors c5s 1 0 [] [] =
      .abort [] ([] ++ [.error "Could not read an import's name."]) ∧
    parse_descriptors c2_ok (c2_ok.file.length + 1) 0 [] [] = .cont [] [] ∧
    _parse_imports c2_ok =
      ⟨true, (parse_lookup_tables c2_ok (c2_ok.file.length + 1) [] []).1,
       (parse_lookup_tables c2_ok (c2_ok.file.length + 1) [] []).2⟩ := by
  refine ⟨by decide, c5_thm.1 c5s 0 0 [c5lib] [] (by decide) (by decide),
    c5_thm.2.1 c5s 0 0 [] (by decide), by decide,
    c5_thm.2.2 c2_ok 0 [] [] (by decide) (by decide) (by decide)⟩

/-- C8: the direct-file-offset fallback for an untranslatable RVA exists
only for the descriptor's library-name RVA (first conjunct: with
`rva_to_offset` failing, the name is read at the raw `Name` value);
for the chosen lookup-table RVA (second conjunct) and for the Hint/Name
RVA of a by-name thunk (third conjunct), translation failure is fatal
with no fallback read. -/
theorem c8_thm :
    (∀ (s : PEFile) (pos : Nat),
        pos + 20 ≤ s.file.length →
        ¬((decode_descriptor s.file pos).OriginalFirstThunk = 0 ∧
          (decode_descriptor s.file pos).FirstThunk = 0) →
        s.rva_to_offset (decode_descriptor s.file pos).Name = 0 →
        read_descriptor s pos =
          (match read_string_at_offset s.file (decode_descriptor s.file pos).Name with
           | some str => .lib { decode_descriptor s.file pos with NameStr := str }
           | none => .nameFail))
    ∧ (∀ (s : PEFile) (fuel : Nat) (d : image_import_descriptor)
        (es : List import_lookup_table) (rest : List image_library_descriptor)
        (logs : List LogEvent),
        s.rva_to_offset
          (if d.OriginalFirstThunk ≠ 0 then d.OriginalFirstThunk else d.FirstThunk) = 0 →
        parse_lookup_tables s fuel ((d, es) :: rest) logs =
          ((d, es) :: rest, logs ++ [.error "Could not reach an IMPORT_LOOKUP_TABLE."]))
    ∧ (∀ (s : PEFile) (pos : Nat),
        pos + size_to_read s ≤ s.file.length →
        readLE s.file pos (size_to_read s) ≠ 0 →
        readLE s.file pos (size_to_read s) &&& ordinal_mask s = 0 →
        s.rva_to_offset (readLE s.file pos (size_to_read s) &&& 0x7FFFFFFF) = 0 →
        read_thunk_entry s pos = .fail "Could not reach the HINT/NAME table.") := by
  refine ⟨?_, ?_, ?_⟩
  · intro s pos hlen hns hrva
    simp [read_descriptor, hlen, hns, hrva]
  · intro s fuel d es rest logs h
    simp only [ne_eq, ite_not] at h
    simp [parse_lookup_tables, h]
  · intro s pos hlen hraw hmask hrva
    simp [read_thunk_entry, hlen, hraw, hmask, hrva]

/-- C8 (witness): on `c5s` the unmapped name RVA 999 is used as a direct
offset (and the read there fails); a library whose chosen lookup RVA is
unmapped aborts the lookup phase; the by-name thunk of `c8s` with an
unmapped Hint/Name RVA is fatal. -/
theorem c8_witness :
    read_descriptor c5s 0 =
      (match read_string_at_offset c5s.file (decode_descriptor c5s.file 0).Name with
       | some str => .lib { decode_descriptor c5s.file 0 with NameStr := str }
       | none => .nameFail) ∧
    read_descriptor c5s 0 = .nameFail ∧
    parse_lookup_tables c5s 21 [c5lib] [] =
      ([c5lib], [] ++ [.error "Could not reach an IMPORT_LOOKUP_TABLE."]) ∧
    read_thunk_entry c8s 0 = .fail "Could not reach the HINT/NAME table." := by
  refine ⟨c8_thm.1 c5s 0 (by decide) (by decide) (by decide), by decide,
    c8_thm.2.1 c5s 21 c5lib.1 [] [] [] (by decide),
    c8_thm.2.2 c8s 0 (by decide) (by decide) (by decide) (by decide)⟩

/-- C4 (counterexample): in `c4s` the by-name side-trip's name read runs
into end-of-file with no NUL terminator — a read failure — yet the parse
does not abort with `HintNameUnreadable`: it completes with the partial
name `"AB"`, an empty log, and `ret = true`. -/
theorem c4_counterexample :
    c4s.file.length = 56 ∧
    _parse_imports c4s =
      ⟨true,
       [({ OriginalFirstThunk := 100, TimeDateStamp := 0, ForwarderChain := 0,
           Name := 200, FirstThunk := 100, NameStr := "L" },
         [⟨300, 1, "AB"⟩])],
       []⟩ := by
  refine ⟨by decide, by decide⟩

/-- C4 (amended): during the by-name side-trip only the failure to read
the 2-byte hint is fatal (`HintNameUnreadable`); once the hint is read,
the NUL-terminated name read cannot fail — whatever bytes follow, the
entry is produced from the (possibly EOF-truncated) string and the loop
continues at the saved cursor. -/
theorem c4_thm :
    (∀ (s : PEFile) (pos : Nat),
        pos + size_to_read s ≤ s.file.length →
        readLE s.file pos (size_to_read s) ≠ 0 →
        readLE s.file pos (size_to_read s) &&& ordinal_mask s = 0 →
        s.rva_to_offset (readLE s.file pos (size_to_read s) &&& 0x7FFFFFFF) ≠ 0 →
        ¬(s.rva_to_offset (readLE s.file pos (size_to_read s) &&& 0x7FFFFFFF) + 2
            ≤ s.file.length) →
        read_thunk_entry s pos = .fail "Could not read a HINT/NAME hint.")
    ∧ (∀ (s : PEFile) (pos : Nat),
        pos + size_to_read s ≤ s.file.length →
        readLE s.file pos (size_to_read s) ≠ 0 →
        readLE s.file pos (size_to_read s) &&& ordinal_mask s = 0 →
        s.rva_to_offset (readLE s.file pos (size_to_read s) &&& 0x7FFFFFFF) ≠ 0 →
        s.rva_to_offset (readLE s.file pos (size_to_read s) &&& 0x7FFFFFFF) + 2
            ≤ s.file.length →
        read_thunk_entry s pos =
          .entry
            { AddressOfData := readLE s.file pos (size_to_read s)
              Hint := readLE s.file
                (s.rva_to_offset (readLE s.file pos (size_to_read s) &&& 0x7FFFFFFF)) 2
              Name := read_ascii_string s.file
                (s.rva_to_offset (readLE s.file pos (size_to_read s) &&& 0x7FFFFFFF) + 2) }
            (pos + size_to_read s)) := by
  constructor
  · intro s pos hlen hraw hmask hrva hhint
    simp [read_thunk_entry, hlen, hraw, hmask, hrva, hhint]
  · intro s pos hlen hraw hmask hrva hhint
    simp [read_thunk_entry, hlen, hraw, hmask, hrva, hhint]

/-- C4 (witness): on `c4s_hint_truncated` the hint read fails fatally;
on `c4s` the hint succeeds and the entry is produced with the
EOF-truncated name. -/
theorem c4_witness :
    read_thunk_entry c4s_hint_truncated 44 = .fail "Could not read a HINT/NAME hint." ∧
    read_thunk_entry c4s 44 =
      .entry
        { AddressOfData := readLE c4s.file 44 (size_to_read c4s)
          Hint := readLE c4s.file
            (c4s.rva_to_offset (readLE c4s.file 44 (size_to_read c4s) &&& 0x7FFFFFFF)) 2
          Name := read_ascii_string c4s.file
            (c4s.rva_to_offset (readLE c4s.file 44 (size_to_read c4s) &&& 0x7FFFFFFF) + 2) }
        (44 + size_to_read c4s) := by
  refine ⟨c4_thm.1 c4s_hint_truncated 44 (by decide) (by decide) (by decide)
      (by decide) (by decide),
    c4_thm.2 c4s 44 (by decide) (by decide) (by decide) (by decide) (by decide)⟩

/-- A number of the form `2^i + K` with `K < 2^i` has its bit `i` set. -/
theorem and_top_bit_ne_zero (i K : Nat) (h : K < 2 ^ i) : (2 ^ i + K) &&& 2 ^ i ≠ 0 := by
  rw [Nat.and_two_pow]
  have h1 : (2 ^ i + K) / 2 ^ i = 1 := by
    rw [Nat.add_comm, Nat.add_div_right _ (Nat.two_pow_pos i), Nat.div_eq_of_lt h]
  have ht : Nat.testBit (2 ^ i + K) i = true := by
    rw [Nat.testBit_to_div_mod, h1]
    decide
  rw [ht]
  simp [Nat.pos_iff_ne_zero.mp (Nat.two_pow_pos i)]

/-- C3 (counterexample): the thunk `0x80008000` of `c3s` has the 32-bit
top bit set and low bits `K = 32768`, yet `get_imported_functions`
synthesizes `"#0"` — `AddressOfData & 0x7FFF` keeps only 15 bits — not
`"#32768"` as the claim states. -/
theorem c3_counterexample :
    (_parse_imports c3s).imports =
      [({ OriginalFirstThunk := 44, TimeDateStamp := 0, ForwarderChain := 0,
          Name := 40, FirstThunk := 44, NameStr := "L" },
        [⟨0x80008000, 0, ""⟩])] ∧
    get_imported_functions c3pe "L" = ["#0"] ∧ ("#0" : String) ≠ "#32768" := by
  refine ⟨by decide, by decide, by decide⟩

/-- C3 (amended): a lookup entry whose raw value has the
bitness-appropriate top bit set and low bits `K` is parsed by-ordinal —
no Hint/Name read, empty name, hint 0 — and `get_imported_functions`
synthesizes `"#" + (raw_value & 0x7FFF)` for it, which equals
`"#" + (K mod 0x8000)`: the label is `"#K"` exactly when `K < 0x8000`. -/
theorem c3_thm :
    (∀ (s : PEFile) (pos K : Nat),
        K < ordinal_mask s →
        pos + size_to_read s ≤ s.file.length →
        readLE s.file pos (size_to_read s) = ordinal_mask s + K →
        read_thunk_entry s pos =
          .entry ⟨ordinal_mask s + K, 0, ""⟩ (pos + size_to_read s))
    ∧ (∀ (pe : PE) (dll : String) (lib : image_library_descriptor)
        (i : Nat) (e : import_lookup_table),
        pe._initialized = true →
        pe._imports.find? (fun l => l.1.NameStr == dll) = some lib →
        lib.2[i]? = some e → e.Name = "" →
        (get_imported_functions pe dll)[i]?
          = some ("#" ++ toString (e.AddressOfData &&& 0x7FFF)))
    ∧ (∀ (b : Bool) (K : Nat),
        K < (if b then 0x8000000000000000 else 0x80000000) →
        ((if b then (0x8000000000000000 : Nat) else 0x80000000) + K) &&& 0x7FFF
          = K % 0x8000) := by
  refine ⟨?_, ?_, ?_⟩
  · intro s pos K hK hlen hread
    have hmask : ordinal_mask s = 2 ^ (if s.is64 then 63 else 31) := by
      unfold ordinal_mask; rcases s.is64 with _ | _ <;> norm_num
    have hpos : 0 < ordinal_mask s := by rw [hmask]; exact Nat.two_pow_pos _
    have hne : ordinal_mask s + K ≠ 0 := by omega
    have hand : (ordinal_mask s + K) &&& ordinal_mask s ≠ 0 := by
      rw [hmask] at hK ⊢
      exact and_top_bit_ne_zero _ _ hK
    simp [read_thunk_entry, hlen, hread, hne, hand]
  · intro pe dll lib i e hinit hfind hget hname
    simp [get_imported_functions, hinit, hfind, List.getElem?_map, hget, hname]
  · intro b K hK
    have h15 : (0x7FFF : Nat) = 2 ^ 15 - 1 := by norm_num
    rcases b with _ | _ <;>
      simp only [if_true, if_false, Bool.false_eq_true] at hK ⊢ <;>
      rw [h15, Nat.and_pow_two_sub_one_eq_mod] <;> omega

/-- C3 (witness): the `0x80008000` thunk of `c3s` at offset 44, its label
through the query layer, and the mask arithmetic at `K = 32768`. -/
theorem c3_witness :
    read_thunk_entry c3s 44 =
      .entry ⟨ordinal_mask c3s + 32768, 0, ""⟩ (44 + size_to_read c3s) ∧
    (get_imported_functions c3pe "L")[0]?
      = some ("#" ++ toString ((2147516416 : Nat) &&& 0x7FFF)) ∧
    ((if false then (0x8000000000000000 : Nat) else 0x80000000) + 32768) &&& 0x7FFF
      = 32768 % 0x8000 := by
  refine ⟨c3_thm.1 c3s 44 32768 (by decide) (by decide) (by decide),
    c3_thm.2.1 c3pe "L"
      ({ OriginalFirstThunk := 44, TimeDateStamp := 0, ForwarderChain := 0,
         Name := 40, FirstThunk := 44, NameStr := "L" }, [⟨2147516416, 0, ""⟩])
      0 ⟨2147516416, 0, ""⟩ (by decide) (by decide) (by decide) (by decide),
    c3_thm.2.2 false 32768 (by decide)⟩

/-- A library accepted by the descriptor loop passed the sentinel check:
its two thunk fields are not both zero. -/
theorem read_descriptor_lib_not_sentinel (s : PEFile) (pos : Nat)
    (d : image_import_descriptor) (h : read_descriptor s pos = .lib d) :
    ¬(d.OriginalFirstThunk = 0 ∧ d.FirstThunk = 0) := by
  simp only [read_descriptor] at h
  split at h
  · split at h
    · cases h
    · rename_i hsent
      split at h
      · cases h
        simpa using hsent
      · cases h
  · cases h

/-- An entry produced by the lookup loop passed the zero-sentinel check. -/
theorem read_thunk_entry_entry_nonzero (s : PEFile) (pos : Nat)
    (e : import_lookup_table) (next : Nat)
    (h : read_thunk_entry s pos = .entry e next) : e.AddressOfData ≠ 0 := by
  simp only [read_thunk_entry] at h
  repeat' split at h
  all_goals (cases h <;> simp_all)

/-- Every library present after the descriptor loop was either in the
starting accumulator or was accepted by `read_descriptor` (with an empty
entry list). -/
theorem parse_descriptors_mem (s : PEFile) :
    ∀ (fuel pos : Nat) (acc : List image_library_descriptor) (logs : List LogEvent)
      (l : image_library_descriptor),
      l ∈ (parse_descriptors s fuel pos acc logs).libs →
      l ∈ acc ∨ ∃ p d, read_descriptor s p = .lib d ∧ l = (d, []) := by
  intro fuel
  induction fuel with
  | zero =>
    intro pos acc logs l hl
    simp only [parse_descriptors, DescLoopOut.libs] at hl
    exact .inl hl
  | succ n ih =>
    intro pos acc logs l hl
    rcases hr : read_descriptor s pos with _ | _ | _ | d
    · simp only [parse_descriptors, hr, DescLoopOut.libs] at hl
      exact .inl hl
    · simp only [parse_descriptors, hr, DescLoopOut.libs] at hl
      exact .inl hl
    · simp only [parse_descriptors, hr] at hl
      split at hl <;> (simp only [DescLoopOut.libs] at hl; exact .inl hl)
    · simp only [parse_descriptors, hr] at hl
      rcases ih (pos + 20) (acc ++ [(d, [])]) logs l hl with hmem | hex
      · rcases List.mem_append.mp hmem with h1 | h2
        · exact .inl h1
        · exact .inr ⟨pos, d, hr, by simpa using h2⟩
      · exact .inr hex

/-- Every entry present after one library's lookup loop was either in
the starting accumulator or was produced by `read_thunk_entry`. -/
theorem parse_ilt_mem (s : PEFile) :
    ∀ (fuel pos : Nat) (acc : List import_lookup_table) (e : import_lookup_table),
      e ∈ (parse_ilt s fuel pos acc).entries →
      e ∈ acc ∨ ∃ p e0 n, read_thunk_entry s p = .entry e0 n ∧ e = e0 := by
  intro fuel
  induction fuel with
  | zero =>
    intro pos acc e he
    simp only [parse_ilt, IltOut.entries] at he
    exact .inl he
  | succ n ih =>
    intro pos acc e he
    rcases hr : read_thunk_entry s pos with msg | _ | ⟨e0, next⟩
    · simp only [parse_ilt, hr, IltOut.entries] at he
      exact .inl he
    · simp only [parse_ilt, hr, IltOut.entries] at he
      exact .inl he
    · simp only [parse_ilt, hr] at he
      rcases ih next (acc ++ [e0]) e he with hmem | hex
      · rcases List.mem_append.mp hmem with h1 | h2
        · exact .inl h1
        · exact .inr ⟨pos, e0, next, hr, by simpa using h2⟩
      · exact .inr hex

/-- Every library in the lookup phase's output keeps a descriptor from
the input list, and its entries are either the ones it came in with or
the output of a `parse_ilt` run started from them. -/
theorem parse_lookup_tables_mem (s : PEFile) (fuel : Nat) :
    ∀ (libs : List image_library_descriptor) (logs : List LogEvent)
      (lib : image_library_descriptor),
      lib ∈ (parse_lookup_tables s fuel libs logs).1 →
      ∃ es, (lib.1, es) ∈ libs ∧
        (lib.2 = es ∨ ∃ off, lib.2 = (parse_ilt s fuel off es).entries) := by
  intro libs
  induction libs with
  | nil =>
    intro logs lib hl
    simp [parse_lookup_tables] at hl
  | cons hd rest ih =>
    intro logs lib hl
    rcases hd with ⟨d, es⟩
    simp only [parse_lookup_tables] at hl
    generalize hoff : s.rva_to_offset
      (if d.OriginalFirstThunk ≠ 0 then d.OriginalFirstThunk else d.FirstThunk) = off at hl
    by_cases h0 : off = 0
    · simp only [if_pos h0] at hl
      rcases List.mem_cons.mp hl with h1 | h2
      · exact ⟨es, by simp [h1], .inl (by simp [h1])⟩
      · exact ⟨lib.2, List.mem_cons_of_mem _ (by simpa using h2), .inl rfl⟩
    · simp only [if_neg h0] at hl
      rcases hilt : parse_ilt s fuel off es with acc | ⟨acc, msg⟩
      · rw [hilt] at hl
        dsimp only at hl
        rcases List.mem_cons.mp hl with h1 | h2
        · refine ⟨es, by simp [h1], .inr ⟨off, ?_⟩⟩
          rw [hilt, h1]
          rfl
        · rcases ih logs lib h2 with ⟨es1, hmem, hor⟩
          exact ⟨es1, List.mem_cons_of_mem _ hmem, hor⟩
      · rw [hilt] at hl
        dsimp only at hl
        rcases List.mem_cons.mp hl with h1 | h2
        · refine ⟨es, by simp [h1], .inr ⟨off, ?_⟩⟩
          rw [hilt, h1]
          rfl
        · exact ⟨lib.2, List.mem_cons_of_mem _ (by simpa using h2), .inl rfl⟩

/-- Every library in the final `_parse_imports` output was accepted by
`read_descriptor` with an empty starting entry list, and its entries
come from a `parse_ilt` run started empty. -/
theorem parse_imports_lib_origin (s : PEFile) (lib : image_library_descriptor)
    (hl : lib ∈ (_parse_imports s).imports) :
    (∃ p d, read_descriptor s p = .lib d ∧ lib.1 = d) ∧
    (lib.2 = [] ∨ ∃ off, lib.2 = (parse_ilt s (s.file.length + 1) off []).entries) := by
  simp only [_parse_imports] at hl
  split at hl
  · simp at hl
  · split at hl
    · simp at hl
    · rename_i dirOff hdir
      split at hl
      · rename_i libs logs heq
        have hmem : lib ∈ (parse_descriptors s (s.file.length + 1) dirOff [] []).libs := by
          rw [heq]; exact hl
        rcases parse_descriptors_mem s _ _ _ _ _ hmem with hin | ⟨p, d, hrd, hlib⟩
        · simp at hin
        · exact ⟨⟨p, d, hrd, by rw [hlib]⟩, .inl (by rw [hlib])⟩
      · rename_i libs logs heq
        simp only at hl
        rcases parse_lookup_tables_mem s _ _ _ _ hl with ⟨es, hmem, hor⟩
        have hmem2 : (lib.1, es) ∈ (parse_descriptors s (s.file.length + 1) dirOff [] []).libs := by
          rw [heq]; exact hmem
        rcases parse_descriptors_mem s _ _ _ _ _ hmem2 with hin | ⟨p, d, hrd, hlib⟩
        · simp at hin
        · have hes : es = [] := congrArg Prod.snd hlib
          have hfst : lib.1 = d := congrArg Prod.fst hlib
          refine ⟨⟨p, d, hrd, hfst⟩, ?_⟩
          rw [hes] at hor
          exact hor

/-- C6: a descriptor record with both thunk fields zero terminates the
descriptor scan with the libraries accepted so far, and no library in
any `_parse_imports` output is such a sentinel record. -/
theorem c6_thm :
    (∀ (s : PEFile) (fuel pos : Nat) (acc : List image_library_descriptor)
        (logs : List LogEvent),
        read_descriptor s pos = .sentinel →
        parse_descriptors s (fuel + 1) pos acc logs = .cont acc logs)
    ∧ (∀ (s : PEFile) (lib : image_library_descriptor),
        lib ∈ (_parse_imports s).imports →
        ¬(lib.1.OriginalFirstThunk = 0 ∧ lib.1.FirstThunk = 0)) := by
  constructor
  · intro s fuel pos acc logs h
    simp [parse_descriptors, h]
  · intro s lib hl
    rcases (parse_imports_lib_origin s lib hl).1 with ⟨p, d, hrd, hfst⟩
    rw [hfst]
    exact read_descriptor_lib_not_sentinel s p d hrd

/-- C6 (witness): the all-zero first descriptor of `c2_ok` ends the scan
at once, and the non-sentinel library parsed from `c3s`. -/
theorem c6_witness :
    read_descriptor c2_ok 0 = .sentinel ∧
    parse_descriptors c2_ok 1 0 [c5lib] [] = .cont [c5lib] [] ∧
    (({ OriginalFirstThunk := 44, TimeDateStamp := 0, ForwarderChain := 0,
        Name := 40, FirstThunk := 44, NameStr := "L" },
      [(⟨0x80008000, 0, ""⟩ : import_lookup_table)]) : image_library_descriptor)
        ∈ (_parse_imports c3s).imports ∧
    ¬((44 : Nat) = 0 ∧ (44 : Nat) = 0) := by
  refine ⟨by decide, c6_thm.1 c2_ok 0 0 [c5lib] [] (by decide), by decide, ?_⟩
  exact c6_thm.2 c3s
    ({ OriginalFirstThunk := 44, TimeDateStamp := 0, ForwarderChain := 0,
       Name := 40, FirstThunk := 44, NameStr := "L" }, [⟨0x80008000, 0, ""⟩])
    (by decide)

/-- C7: a thunk whose raw value is zero terminates that library's entry
sequence with the entries collected so far, and no entry in any
`_parse_imports` output has a zero raw value. -/
theorem c7_thm :
    (∀ (s : PEFile) (fuel pos : Nat) (acc : List import_lookup_table),
        read_thunk_entry s pos = .sentinel →
        parse_ilt s (fuel + 1) pos acc = .ok acc)
    ∧ (∀ (s : PEFile) (lib : image_library_descriptor) (e : import_lookup_table),
        lib ∈ (_parse_imports s).imports → e ∈ lib.2 → e.AddressOfData ≠ 0) := by
  constructor
  · intro s fuel pos acc h
    simp [parse_ilt, h]
  · intro s lib e hl he
    rcases (parse_imports_lib_origin s lib hl).2 with hnil | ⟨off, hent⟩
    · rw [hnil] at he
      simp at he
    · rw [hent] at he
      rcases parse_ilt_mem s _ _ _ _ he with hin | ⟨p, e0, n, hre, hee⟩
      · simp at hin
      · rw [hee]
        exact read_thunk_entry_entry_nonzero s p e0 n hre

/-- C7 (witness): the zero thunk of `c3s` at offset 48 ends the entry
scan, and the single parsed entry of `c3s` has a non-zero raw value. -/
theorem c7_witness :
    read_thunk_entry c3s 48 = .sentinel ∧
    parse_ilt c3s 1 48 [⟨300, 1, "AB"⟩] = .ok [⟨300, 1, "AB"⟩] ∧
    (({ OriginalFirstThunk := 44, TimeDateStamp := 0, ForwarderChain := 0,
        Name := 40, FirstThunk := 44, NameStr := "L" },
      [(⟨0x80008000, 0, ""⟩ : import_lookup_table)]) : image_library_descriptor)
        ∈ (_parse_imports c3s).imports ∧
    (0x80008000 : Nat) ≠ 0 := by
  refine ⟨by decide, c7_thm.1 c3s 0 48 [⟨300, 1, "AB"⟩] (by decide), by decide, ?_⟩
  exact c7_thm.2 c3s
    ({ OriginalFirstThunk := 44, TimeDateStamp := 0, ForwarderChain := 0,
       Name := 40, FirstThunk := 44, NameStr := "L" }, [⟨0x80008000, 0, ""⟩])
    ⟨0x80008000, 0, ""⟩ (by decide) (by decide)

end mana
